import Mathlib

/-!
# Verification of the OceanDrift3D per-timestep update pipeline

Shallow embedding of `src/opendrift/models/oceandrift3D.py`.

The single source file defines the `OceanDrift3D` model class: an element
attribute registration (defaults for `wind_drift_factor` and `age_seconds`),
a configuration schema (`configspec`), a terminal-velocity leaf
(`update_terminal_velocity`), and the per-step orchestrator (`update`).
The leaf operations it calls (`advect_ocean_current`, `advect_wind`,
`vertical_mixing`, `vertical_advection`, `deactivate_elements`) live in the
base simulation classes, which are not part of the given sources; they are
modelled from the specification's collaborator contracts, each marked with a
doc comment starting `Modelled from the spec:`.

Machine reals are modelled as rationals; the per-step environment sample is
a per-particle record of field values, as the orchestrator sees it through
`self.environment`.
-/

namespace OceanDrift3D

/-- Lifecycle status of a particle.  In the source, deactivation records a
string reason (`'stranded'`, `'retired'`); active particles are the ones
present in `self.elements`. -/
inductive Status where
  | active : Status
  | inactive : String → Status
deriving DecidableEq

/-- A Python value as it can appear in the parsed configuration.  The gates in
`update` test `... is True`, i.e. identity with the boolean singleton `True`,
so the model keeps the dynamic type: only `pybool true` passes the gate. -/
inductive PyVal where
  | pybool : Bool → PyVal
  | pyint : Int → PyVal
  | pystr : String → PyVal
  | pynone : PyVal
deriving DecidableEq

/-- Python's `x is True`: identity with the `True` singleton.  `1 is True` and
`"True" is True` are both false in Python. -/
def PyVal.isTrue : PyVal → Bool
  | PyVal.pybool true => true
  | _ => false

/-- One particle (element) with the attributes the orchestrator touches:
position (`lon`, `lat`, `z`), `age_seconds`, `terminal_velocity`,
`wind_drift_factor` and lifecycle `status`. -/
structure Particle where
  lon : ℚ
  lat : ℚ
  z : ℚ
  age_seconds : ℚ
  terminal_velocity : ℚ
  wind_drift_factor : ℚ
  status : Status
deriving DecidableEq

/-- The per-step environment sample for one particle: the values of the
`required_variables` of `OceanDrift3D` at the particle's position, with the
`ocean_vertical_diffusivity` profile (`required_profiles`) as a list of
values over the profile depth range. -/
structure EnvSample where
  x_sea_water_velocity : ℚ
  y_sea_water_velocity : ℚ
  x_wind : ℚ
  y_wind : ℚ
  upward_sea_water_velocity : ℚ
  ocean_vertical_diffusivity : List ℚ
  sea_floor_depth_below_sea_level : ℚ
  land_binary_mask : ℚ
deriving DecidableEq

/-- The configuration record described by `OceanDrift3D.configspec`:
`[drift] scheme, max_age_seconds`, `[processes] turbulentmixing,
verticaladvection`, `[turbulentmixing] timestep, verticalresolution,
diffusivitymodel`.  The two process flags are kept as dynamic Python values
because the gates compare them by identity to `True`. -/
structure Config where
  scheme : String
  max_age_seconds : Option ℚ
  turbulentmixing : PyVal
  verticaladvection : PyVal
  timestep : ℚ
  verticalresolution : ℚ
  diffusivitymodel : String

/-- The defaults declared in `OceanDrift3D.configspec`:
`scheme = euler`, `max_age_seconds = None`, `turbulentmixing = False`,
`verticaladvection = True`, `timestep = 1.`, `verticalresolution = 1.`,
`diffusivitymodel = 'environment'`. -/
def defaultConfig : Config :=
  { scheme := "euler"
    max_age_seconds := none
    turbulentmixing := PyVal.pybool false
    verticaladvection := PyVal.pybool true
    timestep := 1
    verticalresolution := 1
    diffusivitymodel := "environment" }

/-- Default of the registered attribute `wind_drift_factor`
(`'default': 0.0` in the `add_variables` call). -/
def wind_drift_factor_default : ℚ := 0

/-- Default of the registered attribute `age_seconds`
(`'default': 0` in the `add_variables` call). -/
def age_seconds_default : ℚ := 0

/-- A particle created without explicit `wind_drift_factor` or `age_seconds`:
both take the registered attribute defaults; position and terminal velocity
are whatever the caller seeds. -/
def mkDefaultParticle (lon lat z tv : ℚ) : Particle :=
  { lon := lon, lat := lat, z := z
    age_seconds := age_seconds_default
    terminal_velocity := tv
    wind_drift_factor := wind_drift_factor_default
    status := Status.active }

/-- Labels for the sub-steps the orchestrator can execute, used to record the
order of leaf invocations in one call to `update`. -/
inductive SubStep where
  | ageAccrual : SubStep
  | currentAdvection : SubStep
  | windAdvection : SubStep
  | terminalVelocityRecompute : SubStep
  | turbulentMixing : SubStep
  | verticalAdvection : SubStep
  | landDeactivation : SubStep
  | ageDeactivation : SubStep
deriving DecidableEq

/-- Source line `self.elements.age_seconds += self.time_step.total_seconds()`:
accrue the step duration onto the particle's age. -/
def age_accrual (dt : ℚ) (p : Particle) : Particle :=
  { p with age_seconds := p.age_seconds + dt }

/-- Source method `update_terminal_velocity`:
`self.elements.terminal_velocity = 0.` — zero for passive particles. -/
def update_terminal_velocity (p : Particle) : Particle :=
  { p with terminal_velocity := 0 }

/-- Modelled from the spec: `advect_ocean_current` is defined in the base
simulation class, not under the given sources.  Contract (spec section 4.1
step 2 and section 6): displace the particle by the ambient current field
sampled at its position, over duration `dt`. -/
def advect_ocean_current (dt : ℚ) (env : EnvSample) (p : Particle) : Particle :=
  { p with lon := p.lon + env.x_sea_water_velocity * dt
           lat := p.lat + env.y_sea_water_velocity * dt }

/-- Modelled from the spec: `advect_wind` is defined in the base simulation
class, not under the given sources.  Contract (spec section 4.1 step 3):
displace the particle by the wind field at its position, scaled by the
particle's own `wind_drift_factor`, over duration `dt`. -/
def advect_wind (dt : ℚ) (env : EnvSample) (p : Particle) : Particle :=
  { p with lon := p.lon + env.x_wind * p.wind_drift_factor * dt
           lat := p.lat + env.y_wind * p.wind_drift_factor * dt }

/-- A representative aggregate of the diffusivity profile consumed by the
mixing leaf. -/
def profileSum (prof : List ℚ) : ℚ :=
  prof.foldl (fun a b => a + b) 0

/-- Modelled from the spec: `vertical_mixing` is defined in the base
simulation class, not under the given sources.  Contract (spec section 4.1
step 5 and section 6): a vertical displacement computed from the particle's
`terminal_velocity`, the diffusivity profile of the environment sample, and
the `[turbulentmixing]` sub-parameters.  A deterministic surrogate with
exactly those dependencies stands in for the stochastic solver. -/
def vertical_mixing (cfg : Config) (env : EnvSample) (p : Particle) : Particle :=
  { p with z := p.z + p.terminal_velocity * cfg.timestep
                 + profileSum env.ocean_vertical_diffusivity * cfg.verticalresolution }

/-- Modelled from the spec: `vertical_advection` is defined in the base
simulation class, not under the given sources.  Contract (spec section 4.1
step 6): deterministic vertical displacement by the environment's vertical
velocity field over `dt`. -/
def vertical_advection (dt : ℚ) (env : EnvSample) (p : Particle) : Particle :=
  { p with z := p.z + env.upward_sea_water_velocity * dt }

/-- Modelled from the spec: `deactivate_elements` is defined in the base
simulation class, not under the given sources.  Contract (spec section 6):
given a boolean mask and a reason code, set `status` for matched particles;
idempotent on already-inactive particles, i.e. only active particles
transition. -/
def deactivate_elements (cond : Bool) (reason : String) (p : Particle) : Particle :=
  if p.status = Status.active ∧ cond = true then
    { p with status := Status.inactive reason }
  else p

/-- In the source, the element arrays (`self.elements`) hold only the active
particles; deactivated particles are excluded from every sub-step.  `onActive`
applies a per-particle leaf to a particle exactly when it is active. -/
def onActive (f : Particle → Particle) (p : Particle) : Particle :=
  if p.status = Status.active then f p else p

/-- The conditional mixing block of `update`:
`if self.config['processes']['turbulentmixing'] is True:` then
`self.update_terminal_velocity()` followed by `self.vertical_mixing()`. -/
def mixingBlock (cfg : Config) (env : EnvSample) (p : Particle) : Particle :=
  if cfg.turbulentmixing.isTrue then
    onActive (vertical_mixing cfg env) (onActive update_terminal_velocity p)
  else p

/-- The sub-step labels contributed by the conditional mixing block. -/
def mixingBlockTrace (cfg : Config) : List SubStep :=
  if cfg.turbulentmixing.isTrue then
    [SubStep.terminalVelocityRecompute, SubStep.turbulentMixing]
  else []

/-- The conditional vertical-advection block of `update`:
`if self.config['processes']['verticaladvection'] is True:` then
`self.vertical_advection()`. -/
def verticalAdvectionBlock (cfg : Config) (dt : ℚ) (env : EnvSample) (p : Particle) : Particle :=
  if cfg.verticaladvection.isTrue then
    onActive (vertical_advection dt env) p
  else p

/-- The sub-step labels contributed by the conditional vertical-advection
block. -/
def verticalAdvectionBlockTrace (cfg : Config) : List SubStep :=
  if cfg.verticaladvection.isTrue then [SubStep.verticalAdvection] else []

/-- The conditional age-retirement block of `update`:
`if self.config['drift']['max_age_seconds'] is not None:` then
`self.deactivate_elements(self.elements.age_seconds >= max_age_seconds,
reason='retired')`. -/
def ageRetirementBlock (cfg : Config) (p : Particle) : Particle :=
  match cfg.max_age_seconds with
  | some m => deactivate_elements (decide (p.age_seconds ≥ m)) "retired" p
  | none => p

/-- The sub-step labels contributed by the conditional age-retirement
block. -/
def ageRetirementBlockTrace (cfg : Config) : List SubStep :=
  match cfg.max_age_seconds with
  | some _ => [SubStep.ageDeactivation]
  | none => []

/-- The motion prefix of `update` (lines before the two deactivation calls):
age accrual, `advect_ocean_current()`, `advect_wind()`, the gated mixing
block and the gated vertical-advection block, in source order.  Its result is
the post-update state of the particle — in particular its post-update
position — as it stands when the deactivation checks run. -/
def motionStages (cfg : Config) (dt : ℚ) (env : EnvSample) (p : Particle) : Particle :=
  verticalAdvectionBlock cfg dt env
    (mixingBlock cfg env
      (onActive (advect_wind dt env)
        (onActive (advect_ocean_current dt env)
          (onActive (age_accrual dt) p))))

/-- Instrumented `update`: the per-particle state transform of
one call, paired with the ordered list of sub-steps the call executes.  The
body follows the source line by line: the motion prefix (age accrual,
`advect_ocean_current()`, `advect_wind()`, the gated mixing block, the gated
vertical-advection block), then
`deactivate_elements(land_binary_mask == 1, reason='stranded')`, and the
gated age-retirement block. -/
def update1T (cfg : Config) (dt : ℚ) (env : EnvSample) (p0 : Particle) :
    Particle × List SubStep :=
  let t3 := [SubStep.ageAccrual] ++ [SubStep.currentAdvection] ++ [SubStep.windAdvection]
  let p5 := motionStages cfg dt env p0
  let t5 := t3 ++ mixingBlockTrace cfg ++ verticalAdvectionBlockTrace cfg
  let p6 := deactivate_elements (decide (env.land_binary_mask = 1)) "stranded" p5
  let t6 := t5 ++ [SubStep.landDeactivation]
  let p7 := ageRetirementBlock cfg p6
  let t7 := t6 ++ ageRetirementBlockTrace cfg
  (p7, t7)

/-- Source method `update` as a per-particle state transform: the state
component of the instrumented step. -/
def update1 (cfg : Config) (dt : ℚ) (env : EnvSample) (p : Particle) : Particle :=
  (update1T cfg dt env p).1

/-- One call to `update` over the whole ensemble: the per-particle transform
mapped over the particles paired with their environment samples. -/
def update (cfg : Config) (dt : ℚ) (ens : List (Particle × EnvSample)) : List Particle :=
  ens.map (fun pe => update1 cfg dt pe.2 pe.1)

/-! ### Concrete sample inputs used by witnesses and counterexamples -/

/-- A sample environment over open water (land mask `0`). -/
def envA : EnvSample :=
  { x_sea_water_velocity := 1
    y_sea_water_velocity := 2
    x_wind := 3
    y_wind := 4
    upward_sea_water_velocity := 5
    ocean_vertical_diffusivity := [1]
    sea_floor_depth_below_sea_level := 100
    land_binary_mask := 0 }

/-- The same sample environment, but on land (land mask `1`). -/
def envLand : EnvSample := { envA with land_binary_mask := 1 }

/-- A sample active particle. -/
def pA : Particle :=
  { lon := 0, lat := 0, z := -1
    age_seconds := 0
    terminal_velocity := 0
    wind_drift_factor := 1 / 2
    status := Status.active }

/-- A sample active particle carrying a nonzero terminal velocity. -/
def pTV : Particle := { pA with terminal_velocity := 5 }

/-- A sample particle already deactivated. -/
def pInact : Particle := { pA with status := Status.inactive "stranded" }

/-- The default configuration with turbulent mixing switched on. -/
def cfgMix : Config := { defaultConfig with turbulentmixing := PyVal.pybool true }

/-- The default configuration with a maximum age configured. -/
def cfgAge : Config := { defaultConfig with max_age_seconds := some 1000 }

/-! ### Preservation lemmas for the deactivation leaves -/

lemma deactivate_elements_lon (c : Bool) (r : String) (p : Particle) :
    (deactivate_elements c r p).lon = p.lon := by
  unfold deactivate_elements; split <;> rfl

lemma deactivate_elements_lat (c : Bool) (r : String) (p : Particle) :
    (deactivate_elements c r p).lat = p.lat := by
  unfold deactivate_elements; split <;> rfl

lemma deactivate_elements_z (c : Bool) (r : String) (p : Particle) :
    (deactivate_elements c r p).z = p.z := by
  unfold deactivate_elements; split <;> rfl

lemma deactivate_elements_age (c : Bool) (r : String) (p : Particle) :
    (deactivate_elements c r p).age_seconds = p.age_seconds := by
  unfold deactivate_elements; split <;> rfl

lemma deactivate_elements_tv (c : Bool) (r : String) (p : Particle) :
    (deactivate_elements c r p).terminal_velocity = p.terminal_velocity := by
  unfold deactivate_elements; split <;> rfl

lemma deactivate_elements_of_not_active (c : Bool) (r : String) (p : Particle)
    (h : p.status ≠ Status.active) : deactivate_elements c r p = p := by
  unfold deactivate_elements
  simp [h]

lemma deactivate_elements_status_active (c : Bool) (r : String) (p : Particle)
    (h : p.status = Status.active) :
    (deactivate_elements c r p).status =
      if c then Status.inactive r else Status.active := by
  unfold deactivate_elements
  cases c <;> simp [h]

lemma ageRetirementBlock_lon (cfg : Config) (p : Particle) :
    (ageRetirementBlock cfg p).lon = p.lon := by
  unfold ageRetirementBlock; cases cfg.max_age_seconds <;> simp [deactivate_elements_lon]

lemma ageRetirementBlock_lat (cfg : Config) (p : Particle) :
    (ageRetirementBlock cfg p).lat = p.lat := by
  unfold ageRetirementBlock; cases cfg.max_age_seconds <;> simp [deactivate_elements_lat]

lemma ageRetirementBlock_z (cfg : Config) (p : Particle) :
    (ageRetirementBlock cfg p).z = p.z := by
  unfold ageRetirementBlock; cases cfg.max_age_seconds <;> simp [deactivate_elements_z]

lemma ageRetirementBlock_age (cfg : Config) (p : Particle) :
    (ageRetirementBlock cfg p).age_seconds = p.age_seconds := by
  unfold ageRetirementBlock; cases cfg.max_age_seconds <;> simp [deactivate_elements_age]

lemma ageRetirementBlock_tv (cfg : Config) (p : Particle) :
    (ageRetirementBlock cfg p).terminal_velocity = p.terminal_velocity := by
  unfold ageRetirementBlock; cases cfg.max_age_seconds <;> simp [deactivate_elements_tv]

lemma ageRetirementBlock_of_not_active (cfg : Config) (p : Particle)
    (h : p.status ≠ Status.active) : ageRetirementBlock cfg p = p := by
  unfold ageRetirementBlock
  cases cfg.max_age_seconds <;> simp [deactivate_elements_of_not_active _ _ _ h]

/-! ### Preservation lemmas for the motion prefix -/

lemma onActive_of_active (f : Particle → Particle) (p : Particle)
    (h : p.status = Status.active) : onActive f p = f p := by
  unfold onActive; simp [h]

lemma onActive_of_not_active (f : Particle → Particle) (p : Particle)
    (h : p.status ≠ Status.active) : onActive f p = p := by
  unfold onActive; simp [h]

lemma onActive_field_status (f : Particle → Particle)
    (hf : ∀ q, (f q).status = q.status) (p : Particle) :
    (onActive f p).status = p.status := by
  unfold onActive; split
  · exact hf p
  · rfl

lemma onActive_field_age (f : Particle → Particle)
    (hf : ∀ q, (f q).age_seconds = q.age_seconds) (p : Particle) :
    (onActive f p).age_seconds = p.age_seconds := by
  unfold onActive; split
  · exact hf p
  · rfl

lemma onActive_field_tv (f : Particle → Particle)
    (hf : ∀ q, (f q).terminal_velocity = q.terminal_velocity) (p : Particle) :
    (onActive f p).terminal_velocity = p.terminal_velocity := by
  unfold onActive; split
  · exact hf p
  · rfl

lemma onActive_field_wdf (f : Particle → Particle)
    (hf : ∀ q, (f q).wind_drift_factor = q.wind_drift_factor) (p : Particle) :
    (onActive f p).wind_drift_factor = p.wind_drift_factor := by
  unfold onActive; split
  · exact hf p
  · rfl

lemma mixingBlock_status (cfg : Config) (env : EnvSample) (p : Particle) :
    (mixingBlock cfg env p).status = p.status := by
  unfold mixingBlock; split
  · rw [onActive_field_status (vertical_mixing cfg env) (fun q => rfl),
      onActive_field_status update_terminal_velocity (fun q => rfl)]
  · rfl

lemma mixingBlock_age (cfg : Config) (env : EnvSample) (p : Particle) :
    (mixingBlock cfg env p).age_seconds = p.age_seconds := by
  unfold mixingBlock; split
  · rw [onActive_field_age (vertical_mixing cfg env) (fun q => rfl),
      onActive_field_age update_terminal_velocity (fun q => rfl)]
  · rfl

lemma mixingBlock_of_not_mixing (cfg : Config) (env : EnvSample) (p : Particle)
    (hg : cfg.turbulentmixing.isTrue = false) : mixingBlock cfg env p = p := by
  unfold mixingBlock
  rw [if_neg (by simp [hg])]

lemma mixingBlock_of_not_active (cfg : Config) (env : EnvSample) (p : Particle)
    (h : p.status ≠ Status.active) : mixingBlock cfg env p = p := by
  unfold mixingBlock; split
  · rw [onActive_of_not_active _ _ h, onActive_of_not_active _ _ h]
  · rfl

lemma mixingBlock_tv (cfg : Config) (env : EnvSample) (p : Particle)
    (h : p.status = Status.active) :
    (mixingBlock cfg env p).terminal_velocity =
      if cfg.turbulentmixing.isTrue then 0 else p.terminal_velocity := by
  unfold mixingBlock
  by_cases hg : cfg.turbulentmixing.isTrue = true
  · rw [if_pos hg, if_pos hg, onActive_of_active update_terminal_velocity p h,
      onActive_of_active (vertical_mixing cfg env) (update_terminal_velocity p) h]
    rfl
  · rw [if_neg hg, if_neg hg]

lemma verticalAdvectionBlock_status (cfg : Config) (dt : ℚ) (env : EnvSample) (p : Particle) :
    (verticalAdvectionBlock cfg dt env p).status = p.status := by
  unfold verticalAdvectionBlock; split
  · rw [onActive_field_status (vertical_advection dt env) (fun q => rfl)]
  · rfl

lemma verticalAdvectionBlock_age (cfg : Config) (dt : ℚ) (env : EnvSample) (p : Particle) :
    (verticalAdvectionBlock cfg dt env p).age_seconds = p.age_seconds := by
  unfold verticalAdvectionBlock; split
  · rw [onActive_field_age (vertical_advection dt env) (fun q => rfl)]
  · rfl

lemma verticalAdvectionBlock_tv (cfg : Config) (dt : ℚ) (env : EnvSample) (p : Particle) :
    (verticalAdvectionBlock cfg dt env p).terminal_velocity = p.terminal_velocity := by
  unfold verticalAdvectionBlock; split
  · rw [onActive_field_tv (vertical_advection dt env) (fun q => rfl)]
  · rfl

lemma verticalAdvectionBlock_of_not_active (cfg : Config) (dt : ℚ) (env : EnvSample)
    (p : Particle) (h : p.status ≠ Status.active) :
    verticalAdvectionBlock cfg dt env p = p := by
  unfold verticalAdvectionBlock; split
  · rw [onActive_of_not_active _ _ h]
  · rfl

lemma motionStages_status (cfg : Config) (dt : ℚ) (env : EnvSample) (p : Particle) :
    (motionStages cfg dt env p).status = p.status := by
  unfold motionStages
  rw [verticalAdvectionBlock_status, mixingBlock_status,
    onActive_field_status (advect_wind dt env) (fun q => rfl),
    onActive_field_status (advect_ocean_current dt env) (fun q => rfl),
    onActive_field_status (age_accrual dt) (fun q => rfl)]

lemma motionStages_of_not_active (cfg : Config) (dt : ℚ) (env : EnvSample) (p : Particle)
    (h : p.status ≠ Status.active) : motionStages cfg dt env p = p := by
  unfold motionStages
  rw [onActive_of_not_active _ _ h, onActive_of_not_active _ _ h,
    onActive_of_not_active _ _ h, mixingBlock_of_not_active _ _ _ h,
    verticalAdvectionBlock_of_not_active _ _ _ _ h]

lemma motionStages_age (cfg : Config) (dt : ℚ) (env : EnvSample) (p : Particle)
    (h : p.status = Status.active) :
    (motionStages cfg dt env p).age_seconds = p.age_seconds + dt := by
  unfold motionStages
  rw [verticalAdvectionBlock_age, mixingBlock_age,
    onActive_field_age (advect_wind dt env) (fun q => rfl),
    onActive_field_age (advect_ocean_current dt env) (fun q => rfl),
    onActive_of_active (age_accrual dt) p h]
  rfl

lemma motionStages_tv (cfg : Config) (dt : ℚ) (env : EnvSample) (p : Particle)
    (h : p.status = Status.active) :
    (motionStages cfg dt env p).terminal_velocity =
      if cfg.turbulentmixing.isTrue then 0 else p.terminal_velocity := by
  unfold motionStages
  have h3 : (onActive (advect_wind dt env)
      (onActive (advect_ocean_current dt env) (onActive (age_accrual dt) p))).status =
        Status.active := by
    rw [onActive_field_status (advect_wind dt env) (fun q => rfl),
      onActive_field_status (advect_ocean_current dt env) (fun q => rfl),
      onActive_field_status (age_accrual dt) (fun q => rfl)]
    exact h
  rw [verticalAdvectionBlock_tv, mixingBlock_tv _ _ _ h3]
  by_cases hg : cfg.turbulentmixing.isTrue = true
  · rw [if_pos hg, if_pos hg]
  · rw [if_neg hg, if_neg hg,
      onActive_field_tv (advect_wind dt env) (fun q => rfl),
      onActive_field_tv (advect_ocean_current dt env) (fun q => rfl),
      onActive_field_tv (age_accrual dt) (fun q => rfl)]

lemma update1_eq (cfg : Config) (dt : ℚ) (env : EnvSample) (p : Particle) :
    update1 cfg dt env p =
      ageRetirementBlock cfg
        (deactivate_elements (decide (env.land_binary_mask = 1)) "stranded"
          (motionStages cfg dt env p)) := rfl

lemma update1_of_not_active (cfg : Config) (dt : ℚ) (env : EnvSample) (p : Particle)
    (h : p.status ≠ Status.active) : update1 cfg dt env p = p := by
  rw [update1_eq, motionStages_of_not_active _ _ _ _ h,
    deactivate_elements_of_not_active _ _ _ h, ageRetirementBlock_of_not_active _ _ h]

lemma advect_wind_of_wdf_zero (dt : ℚ) (env : EnvSample) (p : Particle)
    (h : p.wind_drift_factor = 0) : advect_wind dt env p = p := by
  cases p with
  | mk lon lat z age tv wdf st =>
    have h2 : wdf = 0 := h
    subst h2
    unfold advect_wind
    simp

lemma onActive_advect_wind_of_wdf_zero (dt : ℚ) (env : EnvSample) (q : Particle)
    (h : q.wind_drift_factor = 0) : onActive (advect_wind dt env) q = q := by
  unfold onActive; split
  · exact advect_wind_of_wdf_zero dt env q h
  · rfl

lemma ageRetirementBlock_status_cases (cfg : Config) (q : Particle)
    (hq : q.status = Status.active) :
    (ageRetirementBlock cfg q).status = Status.active ∨
      (ageRetirementBlock cfg q).status = Status.inactive "retired" := by
  unfold ageRetirementBlock
  cases cfg.max_age_seconds with
  | none => exact Or.inl hq
  | some m =>
    rw [deactivate_elements_status_active _ _ _ hq]
    cases hdec : decide (q.age_seconds ≥ m) with
    | false => left; simp
    | true => right; simp

lemma update1_stranded_of_mask (cfg : Config) (dt : ℚ) (env : EnvSample) (p : Particle)
    (hact : p.status = Status.active) (hm : env.land_binary_mask = 1) :
    (update1 cfg dt env p).status = Status.inactive "stranded" := by
  have hq : (motionStages cfg dt env p).status = Status.active := by
    rw [motionStages_status]; exact hact
  have h2 : (deactivate_elements (decide (env.land_binary_mask = 1)) "stranded"
      (motionStages cfg dt env p)).status = Status.inactive "stranded" := by
    rw [deactivate_elements_status_active _ _ _ hq]
    simp [hm]
  have h3 : (deactivate_elements (decide (env.land_binary_mask = 1)) "stranded"
      (motionStages cfg dt env p)).status ≠ Status.active := by
    rw [h2]; simp
  rw [update1_eq, ageRetirementBlock_of_not_active _ _ h3, h2]

lemma update1_not_stranded_of_mask_ne (cfg : Config) (dt : ℚ) (env : EnvSample)
    (p : Particle) (hact : p.status = Status.active) (hm : env.land_binary_mask ≠ 1) :
    (update1 cfg dt env p).status = Status.active ∨
      (update1 cfg dt env p).status = Status.inactive "retired" := by
  have hq : (motionStages cfg dt env p).status = Status.active := by
    rw [motionStages_status]; exact hact
  have h2 : deactivate_elements (decide (env.land_binary_mask = 1)) "stranded"
      (motionStages cfg dt env p) = motionStages cfg dt env p := by
    unfold deactivate_elements
    rw [if_neg]
    simp [hm]
  rw [update1_eq, h2]
  exact ageRetirementBlock_status_cases cfg _ hq

/-! ### The claims -/

/-- C1: one call to `update` executes the sub-steps in this fixed order:
age accrual, current advection, wind advection, then (only if turbulent
mixing is enabled) terminal-velocity recompute immediately followed by
turbulent mixing, then (only if vertical advection is enabled) vertical
advection, then land deactivation, then (only if `max_age_seconds` is set)
age-retirement deactivation; no sub-step out of this order and no other
sub-step. -/
theorem claim_C1_substep_order (cfg : Config) (dt : ℚ) (env : EnvSample) (p : Particle) :
    (update1T cfg dt env p).2 =
      [SubStep.ageAccrual, SubStep.currentAdvection, SubStep.windAdvection]
        ++ (if cfg.turbulentmixing.isTrue then
              [SubStep.terminalVelocityRecompute, SubStep.turbulentMixing] else [])
        ++ (if cfg.verticaladvection.isTrue then [SubStep.verticalAdvection] else [])
        ++ [SubStep.landDeactivation]
        ++ (if cfg.max_age_seconds.isSome then [SubStep.ageDeactivation] else []) := by
  cases hm : cfg.max_age_seconds <;>
    simp [update1T, mixingBlockTrace, verticalAdvectionBlockTrace,
      ageRetirementBlockTrace, hm]

/-- C2: after one call to `update` with step duration `dt > 0`, every active
particle's `age_seconds` is exactly its pre-step value plus `dt`, for every
configuration and environment sample. -/
theorem claim_C2_age_accrual (cfg : Config) (dt : ℚ) (env : EnvSample) (p : Particle)
    (hact : p.status = Status.active) (hdt : 0 < dt) :
    (update1 cfg dt env p).age_seconds = p.age_seconds + dt := by
  rw [update1_eq, ageRetirementBlock_age, deactivate_elements_age,
    motionStages_age _ _ _ _ hact]

/-- Witness for C2 at a concrete input. -/
theorem claim_C2_age_accrual_witness :
    (update1 defaultConfig 3600 envA pA).age_seconds = pA.age_seconds + 3600 :=
  claim_C2_age_accrual defaultConfig 3600 envA pA rfl (by norm_num)

/-- C3: when `turbulentmixing` does not pass its gate, the mixing leaf is
never invoked in the call, and the particle's vertical position is the same
in two runs that differ only in the diffusivity profile. -/
theorem claim_C3_no_mixing_frame (cfg : Config) (dt : ℚ) (env : EnvSample)
    (K : List ℚ) (p : Particle) (hg : cfg.turbulentmixing.isTrue = false) :
    SubStep.turbulentMixing ∉ (update1T cfg dt env p).2 ∧
    (update1 cfg dt { env with ocean_vertical_diffusivity := K } p).z =
      (update1 cfg dt env p).z := by
  constructor
  · cases hm : cfg.max_age_seconds <;> cases hv : cfg.verticaladvection.isTrue <;>
      simp [update1T, mixingBlockTrace, verticalAdvectionBlockTrace,
        ageRetirementBlockTrace, hm, hv, hg]
  · rw [update1_eq, update1_eq, ageRetirementBlock_z, ageRetirementBlock_z,
      deactivate_elements_z, deactivate_elements_z]
    unfold motionStages
    rw [mixingBlock_of_not_mixing _ _ _ hg, mixingBlock_of_not_mixing _ _ _ hg]
    rfl

/-- Witness for C3 at a concrete input: default configuration (mixing off),
diffusivity profile replaced by `[7]`. -/
theorem claim_C3_no_mixing_frame_witness :
    SubStep.turbulentMixing ∉ (update1T defaultConfig 1 envA pA).2 ∧
    (update1 defaultConfig 1 { envA with ocean_vertical_diffusivity := [7] } pA).z =
      (update1 defaultConfig 1 envA pA).z :=
  claim_C3_no_mixing_frame defaultConfig 1 envA [7] pA rfl

/-- C4 counterexample: with the default configuration (turbulent mixing
disabled) the terminal-velocity recompute is not executed and an active
particle's `terminal_velocity` is left at its prior value `5` rather than
being rewritten, refuting the claim that the recompute happens on every call
regardless of configuration. -/
theorem claim_C4_counterexample :
    pTV.status = Status.active ∧
    SubStep.terminalVelocityRecompute ∉ (update1T defaultConfig 1 envA pTV).2 ∧
    (update1 defaultConfig 1 envA pTV).terminal_velocity = 5 := by
  refine ⟨rfl, by decide, rfl⟩

/-- C4 as amended: `terminal_velocity` is recomputed (set to `0`) for every
active particle once per step, before the mixing sub-step, only when
turbulent mixing is enabled; when it is not enabled the attribute is left
unchanged. -/
theorem claim_C4_amended_terminal_velocity (cfg : Config) (dt : ℚ) (env : EnvSample)
    (p : Particle) (hact : p.status = Status.active) :
    (cfg.turbulentmixing.isTrue = true →
      (update1 cfg dt env p).terminal_velocity = 0) ∧
    (cfg.turbulentmixing.isTrue = false →
      (update1 cfg dt env p).terminal_velocity = p.terminal_velocity) := by
  constructor <;> intro hg <;>
    rw [update1_eq, ageRetirementBlock_tv, deactivate_elements_tv,
      motionStages_tv _ _ _ _ hact] <;>
    simp [hg]

/-- Witness for the amended C4 at concrete inputs: mixing on gives `0`,
mixing off keeps the particle's value. -/
theorem claim_C4_amended_terminal_velocity_witness :
    (update1 cfgMix 1 envA pTV).terminal_velocity = 0 ∧
    (update1 defaultConfig 1 envA pTV).terminal_velocity = pTV.terminal_velocity :=
  ⟨(claim_C4_amended_terminal_velocity cfgMix 1 envA pTV rfl).1 rfl,
   (claim_C4_amended_terminal_velocity defaultConfig 1 envA pTV rfl).2 rfl⟩

/-- C5: `update_terminal_velocity` sets `terminal_velocity` to exactly `0`
for every particle and every input state, and touches nothing else: this
variant is a pure passive tracer. -/
theorem claim_C5_terminal_velocity_zero (p : Particle) :
    (update_terminal_velocity p).terminal_velocity = 0 ∧
    (update_terminal_velocity p).lon = p.lon ∧
    (update_terminal_velocity p).lat = p.lat ∧
    (update_terminal_velocity p).z = p.z ∧
    (update_terminal_velocity p).age_seconds = p.age_seconds ∧
    (update_terminal_velocity p).wind_drift_factor = p.wind_drift_factor ∧
    (update_terminal_velocity p).status = p.status :=
  ⟨rfl, rfl, rfl, rfl, rfl, rfl, rfl⟩

/-- C6: in one call to `update`, an active particle ends the step inactive
with reason `"stranded"` exactly when its land-mask sample is `1`, and the
check runs after all position updates: the deactivation leaves the particle
at the position produced by the motion prefix (the post-update position). -/
theorem claim_C6_land_deactivation (cfg : Config) (dt : ℚ) (env : EnvSample)
    (p : Particle) (hact : p.status = Status.active) :
    ((update1 cfg dt env p).status = Status.inactive "stranded" ↔
      env.land_binary_mask = 1) ∧
    (update1 cfg dt env p).lon = (motionStages cfg dt env p).lon ∧
    (update1 cfg dt env p).lat = (motionStages cfg dt env p).lat ∧
    (update1 cfg dt env p).z = (motionStages cfg dt env p).z := by
  refine ⟨⟨?_, ?_⟩, ?_, ?_, ?_⟩
  · intro hst
    by_contra hm
    rcases update1_not_stranded_of_mask_ne cfg dt env p hact hm with h | h <;>
      rw [hst] at h <;> simp_all
  · intro hm
    exact update1_stranded_of_mask cfg dt env p hact hm
  · rw [update1_eq, ageRetirementBlock_lon, deactivate_elements_lon]
  · rw [update1_eq, ageRetirementBlock_lat, deactivate_elements_lat]
  · rw [update1_eq, ageRetirementBlock_z, deactivate_elements_z]

/-- Witness for C6 at a concrete input on land. -/
theorem claim_C6_land_deactivation_witness :
    ((update1 defaultConfig 1 envLand pA).status = Status.inactive "stranded" ↔
      envLand.land_binary_mask = 1) ∧
    (update1 defaultConfig 1 envLand pA).lon = (motionStages defaultConfig 1 envLand pA).lon ∧
    (update1 defaultConfig 1 envLand pA).lat = (motionStages defaultConfig 1 envLand pA).lat ∧
    (update1 defaultConfig 1 envLand pA).z = (motionStages defaultConfig 1 envLand pA).z :=
  claim_C6_land_deactivation defaultConfig 1 envLand pA rfl

/-- C7: a particle that satisfies both the land condition and the
age-retirement condition in the same call ends the step as `"stranded"`,
not `"retired"`: the land check runs first and its outcome is not
overwritten by the age check. -/
theorem claim_C7_stranded_precedence (cfg : Config) (dt : ℚ) (env : EnvSample)
    (p : Particle) (m : ℚ) (hact : p.status = Status.active)
    (hmask : env.land_binary_mask = 1) (hcfg : cfg.max_age_seconds = some m)
    (hage : m ≤ p.age_seconds + dt) :
    (update1 cfg dt env p).status = Status.inactive "stranded" :=
  update1_stranded_of_mask cfg dt env p hact hmask

/-- Witness for C7 at a concrete input satisfying both conditions. -/
theorem claim_C7_stranded_precedence_witness :
    (update1 cfgAge 3600 envLand pA).status = Status.inactive "stranded" :=
  claim_C7_stranded_precedence cfgAge 3600 envLand pA 1000 rfl rfl rfl
    (by norm_num [pA])

/-- C8: a particle that is already inactive at the start of a call to
`update` is left completely unchanged — in particular its `status` and
`age_seconds` — so deactivation is monotone and never reversed. -/
theorem claim_C8_inactive_unchanged (cfg : Config) (dt : ℚ) (env : EnvSample)
    (p : Particle) (r : String) (h : p.status = Status.inactive r) :
    update1 cfg dt env p = p :=
  update1_of_not_active cfg dt env p (by simp [h])

/-- Witness for C8 at a concrete inactive particle. -/
theorem claim_C8_inactive_unchanged_witness :
    update1 defaultConfig 1 envA pInact = pInact :=
  claim_C8_inactive_unchanged defaultConfig 1 envA pInact "stranded" rfl

/-- C9: a default-constructed particle has `wind_drift_factor = 0` and
`age_seconds = 0` (the registered attribute defaults), so one call to
`update` produces a state independent of the wind field. -/
theorem claim_C9_default_particle (cfg : Config) (dt wx wy lon lat z tv : ℚ)
    (env : EnvSample) :
    (mkDefaultParticle lon lat z tv).wind_drift_factor = 0 ∧
    (mkDefaultParticle lon lat z tv).age_seconds = 0 ∧
    update1 cfg dt { env with x_wind := wx, y_wind := wy }
        (mkDefaultParticle lon lat z tv) =
      update1 cfg dt env (mkDefaultParticle lon lat z tv) := by
  refine ⟨rfl, rfl, ?_⟩
  have hw : ∀ e : EnvSample,
      onActive (advect_wind dt e)
        (onActive (advect_ocean_current dt e)
          (onActive (age_accrual dt) (mkDefaultParticle lon lat z tv))) =
      onActive (advect_ocean_current dt e)
        (onActive (age_accrual dt) (mkDefaultParticle lon lat z tv)) := by
    intro e
    apply onActive_advect_wind_of_wdf_zero
    rw [onActive_field_wdf (advect_ocean_current dt e) (fun q => rfl),
      onActive_field_wdf (age_accrual dt) (fun q => rfl)]
    rfl
  rw [update1_eq, update1_eq]
  unfold motionStages
  rw [hw, hw]
  rfl

/-- C10: under the schema defaults (`verticaladvection = True`,
`turbulentmixing = False`) one call to `update` runs the vertical-advection
sub-step but not the turbulent-mixing sub-step, and the gates compare the
flag by identity to `True`, so only an exact boolean `True` enables a
process. -/
theorem claim_C10_default_config (dt : ℚ) (env : EnvSample) (p : Particle) :
    (update1T defaultConfig dt env p).2 =
      [SubStep.ageAccrual, SubStep.currentAdvection, SubStep.windAdvection,
        SubStep.verticalAdvection, SubStep.landDeactivation] ∧
    (∀ v : PyVal, v ≠ PyVal.pybool true → PyVal.isTrue v = false) := by
  constructor
  · simp [update1T, mixingBlockTrace, verticalAdvectionBlockTrace,
      ageRetirementBlockTrace, defaultConfig, PyVal.isTrue]
  · intro v hv
    cases v with
    | pybool b =>
      cases b with
      | true => exact absurd rfl hv
      | false => rfl
    | pyint n => rfl
    | pystr s => rfl
    | pynone => rfl

/-- Witness for C10 at a concrete input, with a non-boolean truthy value
rejected by the identity gate. -/
theorem claim_C10_default_config_witness :
    (update1T defaultConfig 1 envA pA).2 =
      [SubStep.ageAccrual, SubStep.currentAdvection, SubStep.windAdvection,
        SubStep.verticalAdvection, SubStep.landDeactivation] ∧
    PyVal.isTrue (PyVal.pyint 1) = false :=
  ⟨(claim_C10_default_config 1 envA pA).1,
   (claim_C10_default_config 1 envA pA).2 (PyVal.pyint 1) (by decide)⟩

end OceanDrift3D
